import Mathlib

/-!
# Verification of the txmsgpackrpc protocol engine

A shallow embedding of `src/txmsgpackrpc/protocol.py` (classes
`MsgpackBaseProtocol`, `MsgpackStreamProtocol`, `MsgpackDatagramProtocol`).

Python dictionaries are modelled as association lists with insertion order
(CPython 3.7+ semantics: `dict.popitem` removes the most recently inserted
entry).  Twisted `Deferred`s are modelled by numeric identifiers together
with a log of resolutions and a set of already-fired identifiers: firing a
deferred twice raises `AlreadyCalledError`, exactly as in Twisted.
Twisted `DelayedCall` timers are likewise numeric identifiers with
fired/cancelled sets; `cancel()` on a fired timer raises `AlreadyCalled`
and on a cancelled timer raises `AlreadyCancelled`.  Python exceptions are
modelled by the `Except Err` monad.
-/

namespace TxMsgpackRpc

/-- MessagePack values appearing in messages (`msgpack` scalar/array model,
restricted to what the protocol code inspects). -/
inductive Val where
  | nil : Val
  | int (n : Int) : Val
  | str (s : String) : Val
  | arr (xs : List Val) : Val

mutual

/-- Decidable equality on `Val` (the nested `arr` constructor defeats the
automatic derivation). -/
def Val.decEq : (a b : Val) → Decidable (a = b)
  | .nil, .nil => .isTrue rfl
  | .nil, .int _ => .isFalse fun h => Val.noConfusion h
  | .nil, .str _ => .isFalse fun h => Val.noConfusion h
  | .nil, .arr _ => .isFalse fun h => Val.noConfusion h
  | .int _, .nil => .isFalse fun h => Val.noConfusion h
  | .int m, .int n =>
      if h : m = n then .isTrue (h ▸ rfl)
      else .isFalse fun hc => h (Val.int.inj hc)
  | .int _, .str _ => .isFalse fun h => Val.noConfusion h
  | .int _, .arr _ => .isFalse fun h => Val.noConfusion h
  | .str _, .nil => .isFalse fun h => Val.noConfusion h
  | .str _, .int _ => .isFalse fun h => Val.noConfusion h
  | .str s, .str t =>
      if h : s = t then .isTrue (h ▸ rfl)
      else .isFalse fun hc => h (Val.str.inj hc)
  | .str _, .arr _ => .isFalse fun h => Val.noConfusion h
  | .arr _, .nil => .isFalse fun h => Val.noConfusion h
  | .arr _, .int _ => .isFalse fun h => Val.noConfusion h
  | .arr _, .str _ => .isFalse fun h => Val.noConfusion h
  | .arr xs, .arr ys =>
      match Val.decEqList xs ys with
      | .isTrue h => .isTrue (h ▸ rfl)
      | .isFalse h => .isFalse fun hc => h (Val.arr.inj hc)

/-- Decidable equality on lists of `Val`. -/
def Val.decEqList : (xs ys : List Val) → Decidable (xs = ys)
  | [], [] => .isTrue rfl
  | [], _ :: _ => .isFalse fun h => List.noConfusion h
  | _ :: _, [] => .isFalse fun h => List.noConfusion h
  | x :: xs, y :: ys =>
      match Val.decEq x y, Val.decEqList xs ys with
      | .isTrue h1, .isTrue h2 => .isTrue (by rw [h1, h2])
      | .isFalse h1, _ => .isFalse fun hc => h1 (by injection hc)
      | _, .isFalse h2 => .isFalse fun hc => h2 (by injection hc)

end

instance : DecidableEq Val := Val.decEq

/-- The exceptions the protocol code can raise: the `txmsgpackrpc.error`
classes imported at the top of `protocol.py`, plus the Python and Twisted
built-in exceptions its statements can produce. -/
inductive Err where
  | connectionError (msg : String)
  | responseError (payload : Val)
  | invalidRequest (msg : String)
  | invalidResponse (msg : String)
  | invalidData (msg : String)
  | timeoutError (msg : String)
  | serializationError (msg : String)
  /-- `undefinedMessageReceived` raises Python `NotImplementedError`; the
  spec's error taxonomy names this failure kind `UndefinedMessage`. -/
  | undefinedMessage
  /-- Python `UnboundLocalError`: a local variable referenced before
  assignment. -/
  | unboundLocalError (var : String)
  /-- Twisted `defer.AlreadyCalledError`: a `Deferred` fired twice. -/
  | alreadyCalledError
  /-- Twisted `error.AlreadyCalled`: `DelayedCall.cancel()` after firing. -/
  | timerAlreadyCalled
  /-- Twisted `error.AlreadyCancelled`: `DelayedCall.cancel()` twice. -/
  | timerAlreadyCancelled
  /-- An opaque `connectionLost` reason supplied by Twisted (for example
  `twisted.internet.error.ConnectionDone`). -/
  | twistedReason (tag : String)
  /-- Python `ValueError` (tuple unpacking of a wrong-length sequence),
  re-raised verbatim when `sendErrors` is set. -/
  | valueError (msg : String)
  /-- Python `IndexError` (`message[0]` / `message[1]` on a short sequence). -/
  | indexError
deriving DecidableEq

/-- `str(e)` / `Failure.getErrorMessage()`: the message text of an
exception. -/
def Err.message : Err → String
  | .connectionError m => m
  | .responseError _ => "ResponseError"
  | .invalidRequest m => m
  | .invalidResponse m => m
  | .invalidData m => m
  | .timeoutError m => m
  | .serializationError m => m
  | .undefinedMessage => "NotImplementedError"
  | .unboundLocalError v => "local variable referenced before assignment: " ++ v
  | .alreadyCalledError => "AlreadyCalledError"
  | .timerAlreadyCalled => "AlreadyCalled"
  | .timerAlreadyCancelled => "AlreadyCancelled"
  | .twistedReason t => t
  | .valueError m => m
  | .indexError => "IndexError"

/-- `Failure.getBriefTraceback()`: the traceback text sent to the peer
when `sendErrors` is set. -/
def Err.brief (e : Err) : String := "Traceback: " ++ e.message

/-- The outcome delivered to a completion handle (Twisted `Deferred`):
`callback(result)` or `errback(failure)`. -/
inductive Outcome where
  | success (v : Val)
  | failure (e : Err)
deriving DecidableEq

/-- `Outcome.failure` with a `ConnectionError`, as the spec's disconnect
path promises. -/
def Outcome.isConnectionFailure : Outcome → Bool
  | .failure (.connectionError _) => true
  | _ => false

/-! ## Insertion-ordered dictionaries (CPython `dict`) -/

/-- `d[k]`-style lookup in an insertion-ordered dictionary. -/
def dictGet {α : Type} : List (Val × α) → Val → Option α
  | [], _ => none
  | (k, v) :: rest, key => if k = key then some v else dictGet rest key

/-- `del d[k]` / `d.pop(k)` removal (keys are unique in all our dicts). -/
def dictRemove {α : Type} : List (Val × α) → Val → List (Val × α)
  | [], _ => []
  | (k, v) :: rest, key =>
      if k = key then rest else (k, v) :: dictRemove rest key

/-- `d[k] = v`: overwrite in place if the key exists, else append
(CPython dicts keep the original position on overwrite). -/
def dictSet {α : Type} : List (Val × α) → Val → α → List (Val × α)
  | [], key, v => [(key, v)]
  | (k, w) :: rest, key, v =>
      if k = key then (k, v) :: rest else (k, w) :: dictSet rest key v

/-! ## Wire messages

`protocol.py` manipulates messages as Python tuples; incoming messages are
arbitrary decoded values, so a message is a `List Val`.  Outgoing messages
are built by the three constructors below (lines 64, 77 and 200/219 of the
source). -/

/-- `MSGTYPE_REQUEST = 0`. -/
def MSGTYPE_REQUEST : Val := .int 0
/-- `MSGTYPE_RESPONSE = 1`. -/
def MSGTYPE_RESPONSE : Val := .int 1
/-- `MSGTYPE_NOTIFICATION = 2`. -/
def MSGTYPE_NOTIFICATION : Val := .int 2

/-- `(MSGTYPE_REQUEST, msgid, method, params)`. -/
def mkRequest (msgid : Nat) (method : String) (params : List Val) : List Val :=
  [MSGTYPE_REQUEST, .int msgid, .str method, .arr params]

/-- `(MSGTYPE_RESPONSE, msgid, error, result)`. -/
def mkResponse (msgid : Val) (error : Val) (result : Val) : List Val :=
  [MSGTYPE_RESPONSE, msgid, error, result]

/-- `(MSGTYPE_NOTIFICATION, method, params)`. -/
def mkNotification (method : String) (params : List Val) : List Val :=
  [MSGTYPE_NOTIFICATION, .str method, .arr params]

/-- `message[1]`, the expression `MsgpackDatagramProtocol.writeMessage`
uses as the pending-timeout key (line 369). -/
def elem1 (m : List Val) : Val := m.getD 1 .nil

/-- Python 4-tuple unpacking `(a, b, c, d) = message`: succeeds exactly
when the sequence has length 4, otherwise raises. -/
def unpack4 : List Val → Option (Val × Val × Val × Val)
  | [a, b, c, d] => some (a, b, c, d)
  | _ => none

/-- Python 3-tuple unpacking `(a, b, c) = message`. -/
def unpack3 : List Val → Option (Val × Val × Val)
  | [a, b, c] => some (a, b, c)
  | _ => none

/-! ## Protocol state

One record holds the fields of `MsgpackBaseProtocol.__init__` together
with the subclass fields (`connected`, and the datagram-only `timeout`,
`conn_address`, `_pendingTimeouts`), plus the bookkeeping that makes the
Twisted collaborators explicit: deferred/timer identifier counters, the
sets of already-fired deferreds and fired/cancelled timers, the ordered
log of deferred resolutions, and an event trace of the observable actions
(table registration/removal, transport writes, resolutions). -/

/-- Observable actions of the engine, in execution order. -/
inductive Event where
  /-- `self._incoming_requests[msgid] = (result, context)` (line 122). -/
  | registered (msgid : Val)
  /-- `writeRawData`: the packed message handed to the transport. -/
  | wrote (msg : List Val) (peer : Option Val)
  /-- `del self._incoming_requests[msgid]` in `endRequest` (line 164). -/
  | removed (msgid : Val)
  /-- a `Deferred` fired with `callback`/`errback`. -/
  | resolved (d : Nat) (o : Outcome)
deriving DecidableEq

structure Proto where
  /-- `self._sendErrors` (constructor argument, default `False`). -/
  sendErrors : Bool := false
  /-- `self.connected == 1` (subclass field, `0` until the transport
  signals readiness). -/
  connected : Bool := false
  /-- `self._next_msgid` (starts at `0`). -/
  nextMsgid : Nat := 0
  /-- `self._outgoing_requests`: msgid to deferred identifier. -/
  outgoing : List (Val × Nat) := []
  /-- `self._incoming_requests`: msgid to the received peer context (the
  deferred component of the stored pair is never read back). -/
  incoming : List (Val × Option Val) := []
  /-- identifier supply for freshly created `Deferred`s. -/
  deferredCount : Nat := 0
  /-- deferreds that have already been fired once. -/
  firedDeferreds : List Nat := []
  /-- the resolutions delivered so far, oldest first. -/
  resolutions : List (Nat × Outcome) := []
  /-- `self.timeout` (datagram constructor argument, default `None`). -/
  timeout : Option Nat := none
  /-- `self.conn_address` (datagram constructor argument). -/
  connAddress : Option Val := none
  /-- `self._pendingTimeouts`: `message[1]` to `DelayedCall` identifier. -/
  pendingTimeouts : List (Val × Nat) := []
  /-- identifier supply for `reactor.callLater` timers. -/
  timerCount : Nat := 0
  /-- timers on which `cancel()` has been called while pending. -/
  cancelledTimers : List Nat := []
  /-- timers whose deadline elapsed and whose callback ran. -/
  firedTimers : List Nat := []
  /-- event trace, oldest first. -/
  events : List Event := []
deriving DecidableEq

/-- Python truthiness of `self.timeout` in
`MsgpackDatagramProtocol.writeMessage` (line 368): `None` and `0` are
falsy. -/
def Proto.timeoutConfigured (s : Proto) : Bool :=
  match s.timeout with
  | some t => t != 0
  | none => false

/-- Result of running a protocol method: normal return, or a raised
exception together with the protocol state at the raise point — a Python
raise does not roll back mutations already performed. -/
inductive Step where
  | ok (s : Proto)
  | err (e : Err) (s : Proto)
deriving DecidableEq

/-- The protocol state after a step, whether it returned or raised (the
raise is caught and printed by `rawDataReceived`, lines 90-91, or lands
in the reactor; either way the object keeps this state). -/
def Step.state : Step → Proto
  | .ok s => s
  | .err _ s => s

/-- Result of `createRequest`: the allocated msgid and the new state, or
a raised exception with the state at the raise point. -/
inductive StepR where
  | ok (msgid : Nat) (s : Proto)
  | err (e : Err) (s : Proto)
deriving DecidableEq

/-- The protocol state after a `createRequest`, returned or raised. -/
def StepR.state : StepR → Proto
  | .ok _ s => s
  | .err _ s => s

/-- Fire a `Deferred`: Twisted raises `AlreadyCalledError` when a deferred
that already has a result is fired again (before recording anything);
otherwise the outcome is delivered (appended to the resolution log). -/
def resolveDeferred (s : Proto) (d : Nat) (o : Outcome) : Step :=
  if d ∈ s.firedDeferreds then .err .alreadyCalledError s
  else .ok { s with
    firedDeferreds := d :: s.firedDeferreds,
    resolutions := s.resolutions ++ [(d, o)],
    events := s.events ++ [.resolved d o] }

/-- `DelayedCall.cancel()`: raises `AlreadyCalled` on a fired timer,
`AlreadyCancelled` on a cancelled one, else marks it cancelled. -/
def cancelTimer (s : Proto) (tid : Nat) : Step :=
  if tid ∈ s.firedTimers then .err .timerAlreadyCalled s
  else if tid ∈ s.cancelledTimers then .err .timerAlreadyCancelled s
  else .ok { s with cancelledTimers := tid :: s.cancelledTimers }

namespace MsgpackBaseProtocol

/-- `getNextMsgid` (lines 81-83): increment `_next_msgid`, return it. -/
def getNextMsgid (s : Proto) : Nat × Proto :=
  (s.nextMsgid + 1, { s with nextMsgid := s.nextMsgid + 1 })

/-- `writeRawData` as bound by `MsgpackStreamProtocol` (line 295):
`transport.write(message)`; modelled as appending to the event trace.
`writeMessage` (lines 222-230) first packs the tuple; for the tuples this
development builds, `msgpack.Packer.pack` always succeeds, so the
`SerializationError` branch is unreachable here and `writeMessage`
reduces to the write. -/
def writeMessage (s : Proto) (msg : List Val) (ctx : Option Val) : Proto :=
  { s with events := s.events ++ [.wrote msg ctx] }

/-- `createRequest` (lines 60-70) with the stream bindings of
`isConnected`/`getClientContext`/`writeMessage`: refuse when not
connected, allocate the next msgid, write the Request, then create a
`Deferred` and register it in `_outgoing_requests`. -/
def createRequest (s : Proto) (method : String) (params : List Val) : StepR :=
  if s.connected then
    let (msgid, s1) := getNextMsgid s
    let s2 := writeMessage s1 (mkRequest msgid method params) none
    let d := s2.deferredCount
    let s3 := { s2 with
      deferredCount := d + 1,
      outgoing := dictSet s2.outgoing (.int msgid) d }
    .ok msgid s3
  else .err (.connectionError "Not connected") s

/-- `responseReceived` (lines 167-191): unpack the 4-tuple (malformed
shape raises, `InvalidResponse` unless `sendErrors` re-raises the
original `ValueError`); `pop` the msgid from `_outgoing_requests`, a
`KeyError` being swallowed by `pass`; then dereference `df` — which, when
the `pop` failed, was never assigned, so Python raises
`UnboundLocalError` at `df.errback`/`df.callback`, with the tables
untouched. -/
def responseReceived (s : Proto) (message : List Val) : Step :=
  match unpack4 message with
  | none =>
      if s.sendErrors then .err (.valueError "failed to unpack response") s
      else .err (.invalidResponse "Failed to unpack response") s
  | some (_msgType, msgid, error, result) =>
      match dictGet s.outgoing msgid with
      | some d =>
          let s1 := { s with outgoing := dictRemove s.outgoing msgid }
          if error ≠ Val.nil then
            resolveDeferred s1 d (.failure (.responseError error))
          else
            resolveDeferred s1 d (.success result)
      | none => .err (.unboundLocalError "df") s

/-- `respondCallback` (lines 193-201): look the peer context up in
`_incoming_requests` (`KeyError` yields `ctx = None`), build a success
Response (`error = None`) and write it. -/
def respondCallback (s : Proto) (result : Val) (msgid : Val) : Proto :=
  let ctx := match dictGet s.incoming msgid with
    | some c => c
    | none => none
  writeMessage s (mkResponse msgid .nil result) ctx

/-- `respondError` (lines 213-220): like `respondCallback` with an error
payload and `result = None`. -/
def respondError (s : Proto) (msgid : Val) (error : Val) : Proto :=
  let ctx := match dictGet s.incoming msgid with
    | some c => c
    | none => none
  writeMessage s (mkResponse msgid error .nil) ctx

/-- `respondErrback` (lines 203-211): the error payload is the brief
traceback when `sendErrors` is set, else the failure's message. -/
def respondErrback (s : Proto) (e : Err) (msgid : Val) : Proto :=
  respondError s msgid (.str (if s.sendErrors then Err.brief e else Err.message e))

/-- `endRequest` (lines 162-165): delete the `_incoming_requests` entry
if present and pass the result through. -/
def endRequest (s : Proto) (msgid : Val) : Proto :=
  if (dictGet s.incoming msgid).isSome then
    { s with
      incoming := dictRemove s.incoming msgid,
      events := s.events ++ [.removed msgid] }
  else s

/-- `requestReceived` (lines 103-127).  The application handler invoked
through `callRemoteMethod` is external; its synchronous outcome is the
parameter `h` (`.ok v` when the method returns `v`, `.error e` when
method resolution or the call raises, which `defer.maybeDeferred` turns
into a failed deferred).  Faithful to the source order: unpack, duplicate
msgid check, `maybeDeferred` (the handler runs here), registration of the
`_incoming_requests` entry, and only then attachment of
`respondCallback`/`respondErrback`/`endRequest` — which for an
already-completed deferred run immediately. -/
def requestReceived (s : Proto) (message : List Val) (ctx : Option Val)
    (h : Except Err Val) : Step :=
  match unpack4 message with
  | none =>
      if s.sendErrors then .err (.valueError "failed to unpack request") s
      else if message.length ≠ 4 then
        .err (.invalidData "Incorrect message length. Expected 4") s
      else .err (.invalidData "Failed to unpack request.") s
  | some (_msgType, msgid, _methodName, _params) =>
      if (dictGet s.incoming msgid).isSome then
        .err (.invalidRequest "Request with msgid already exists") s
      else
        let dres := s.deferredCount
        let s0 := { s with deferredCount := dres + 1 }
        let s1 := { s0 with
          incoming := dictSet s0.incoming msgid ctx,
          events := s0.events ++ [.registered msgid] }
        let s2 := match h with
          | .ok v => respondCallback s1 v msgid
          | .error e => respondErrback s1 e msgid
        .ok (endRequest s2 msgid)

/-- `notificationReceived` (lines 232-251): unpack the 3-tuple (failure is
printed and dropped), run the handler through `maybeDeferred` and attach
`notificationCallback`, which is `pass`; no table is touched and nothing
is written back. -/
def notificationReceived (s : Proto) (message : List Val)
    (_h : Except Err Val) : Proto :=
  match unpack3 message with
  | none => s
  | some _ => s

/-- `messageReceived` (lines 93-101): dispatch on `message[0]`; a tag that
is none of 0/1/2 reaches `undefinedMessageReceived` (lines 257-260),
which raises `NotImplementedError` — the failure kind the spec's taxonomy
calls `UndefinedMessage`. -/
def messageReceived (s : Proto) (message : List Val) (ctx : Option Val)
    (h : Except Err Val) : Step :=
  match message with
  | [] => .err .indexError s
  | t :: _ =>
      if t = MSGTYPE_REQUEST then requestReceived s message ctx h
      else if t = MSGTYPE_RESPONSE then responseReceived s message
      else if t = MSGTYPE_NOTIFICATION then
        .ok (notificationReceived s message h)
      else .err .undefinedMessage s

/-- The body of `callbackOutgoingRequests` (lines 262-265): repeatedly
`popitem` (CPython: the most recently inserted entry) and fire the popped
deferred.  The entries still to visit are passed explicitly in pop order;
firing never inserts into `_outgoing_requests`, so the snapshot is exact.
When an `errback` raises (`AlreadyCalledError`), the exception propagates
and the remaining entries stay in the table — exactly as the Python
`while` loop aborts. -/
def drainOutgoing (out : Outcome) :
    Proto → List (Val × Nat) → Step
  | s, [] => .ok s
  | s, (msgid, d) :: rest =>
      let s1 := { s with outgoing := dictRemove s.outgoing msgid }
      match resolveDeferred s1 d out with
      | .err e s2 => .err e s2
      | .ok s2 => drainOutgoing out s2 rest

/-- `callbackOutgoingRequests(func)` where `func d = d.errback(...)` /
`d.callback(...)` always delivers the same outcome `out` (all three call
sites pass such a lambda). -/
def callbackOutgoingRequests (s : Proto) (out : Outcome) : Step :=
  drainOutgoing out s s.outgoing.reverse

end MsgpackBaseProtocol

namespace MsgpackStreamProtocol

/-- `connectionLost` (lines 315-320): mark disconnected (the factory
unregistration is external) and errback every pending outgoing request
with `reason` — the verbatim Twisted disconnect reason. -/
def connectionLost (s : Proto) (reason : Err) : Step :=
  MsgpackBaseProtocol.callbackOutgoingRequests { s with connected := false }
    (.failure reason)

/-- `timeoutConnection` (lines 322-326): the idle timer elapsed; errback
every pending outgoing request with `TimeoutError` (closing the transport
is external). -/
def timeoutConnection (s : Proto) : Step :=
  MsgpackBaseProtocol.callbackOutgoingRequests s
    (.failure (.timeoutError "Request timed out"))

end MsgpackStreamProtocol

namespace MsgpackDatagramProtocol

/-- `writeMessage` (lines 367-374): when `self.timeout` is truthy,
schedule `reactor.callLater(timeout, timeoutRequest, message[1])` and
store the `DelayedCall` under `message[1]` in `_pendingTimeouts` — for
every outgoing message, whatever its kind — then delegate to the base
`writeMessage`. -/
def writeMessage (s : Proto) (msg : List Val) (ctx : Option Val) : Step :=
  if s.timeoutConfigured then
    if msg.length < 2 then .err .indexError s
    else
      let tid := s.timerCount
      let s1 := { s with
        timerCount := tid + 1,
        pendingTimeouts := dictSet s.pendingTimeouts (elem1 msg) tid }
      .ok (MsgpackBaseProtocol.writeMessage s1 msg ctx)
  else .ok (MsgpackBaseProtocol.writeMessage s msg ctx)

/-- `createRequest` (lines 364-365) with the datagram bindings: same body
as the base `createRequest` but writing through the datagram
`writeMessage` and with `getClientContext()` returning
`Context(peer=self.conn_address)`. -/
def createRequest (s : Proto) (method : String) (params : List Val) : StepR :=
  if s.connected then
    let (msgid, s1) := MsgpackBaseProtocol.getNextMsgid s
    match writeMessage s1 (mkRequest msgid method params) s.connAddress with
    | .err e s2 => .err e s2
    | .ok s2 =>
        let d := s2.deferredCount
        let s3 := { s2 with
          deferredCount := d + 1,
          outgoing := dictSet s2.outgoing (.int msgid) d }
        .ok msgid s3
  else .err (.connectionError "Not connected") s

/-- `responseReceived` (lines 376-382): read `message[1]`, cancel a
pending `DelayedCall` found under it (Twisted raises if that timer has
already fired or been cancelled), then delegate to the base
`responseReceived`.  The `_pendingTimeouts` entry is never removed. -/
def responseReceived (s : Proto) (message : List Val) : Step :=
  if message.length < 2 then .err .indexError s
  else
    match dictGet s.pendingTimeouts (elem1 message) with
    | some tid =>
        match cancelTimer s tid with
        | .err e s1 => .err e s1
        | .ok s1 => MsgpackBaseProtocol.responseReceived s1 message
    | none => MsgpackBaseProtocol.responseReceived s message

/-- `timeoutRequest` (lines 400-404): `get` (not `pop`!) the msgid from
`_outgoing_requests` and, when present, errback it with `TimeoutError`.
The entry is left in the table. -/
def timeoutRequest (s : Proto) (msgid : Val) : Step :=
  match dictGet s.outgoing msgid with
  | some d => resolveDeferred s d (.failure (.timeoutError "Request timed out"))
  | none => .ok s

/-- The reactor fires the `DelayedCall` `tid` scheduled for `msgid`: the
timer becomes spent, then its callback `timeoutRequest(msgid)` runs. -/
def fireTimer (s : Proto) (tid : Nat) (msgid : Val) : Step :=
  timeoutRequest { s with firedTimers := tid :: s.firedTimers } msgid

/-- `connectionRefused` (lines 396-398): errback every pending outgoing
request with `ConnectionError("Connection refused")`. -/
def connectionRefused (s : Proto) : Step :=
  MsgpackBaseProtocol.callbackOutgoingRequests s
    (.failure (.connectionError "Connection refused"))

end MsgpackDatagramProtocol

/-! ## The streaming decoder behind `rawDataReceived` -/

/-- Modelled from the spec: the `msgpack.Unpacker` streaming decoder that
`rawDataReceived` (lines 85-91) feeds is an external library, but §4.1 of
the spec makes its partial-frame accumulation semantics load-bearing:
`feed(bytes)` appends to an internal buffer, iteration then yields every
message for which enough bytes are buffered, in order, and partial
trailing bytes remain buffered for the next feed.  Following the spec's
design note it is modelled as a growable byte buffer drained by a
length-prefixed frame loop that stops cleanly on "not enough bytes yet":
a frame `len :: payload` stands for one fully encoded message and the
payload for the decoded message.  `drainBuffer` returns the decoded
payloads and the unconsumed remainder of the buffer. -/
def drainBuffer : List Nat → List (List Nat) × List Nat
  | [] => ([], [])
  | l :: rest =>
      if l ≤ rest.length then
        ((rest.take l) :: (drainBuffer (rest.drop l)).1,
         (drainBuffer (rest.drop l)).2)
      else ([], l :: rest)
termination_by b => b.length
decreasing_by simp [List.length_drop]; omega

/-- Modelled from the spec: the encoding of one message as a
self-delimiting frame. -/
def encodeFrame (p : List Nat) : List Nat := p.length :: p

/-- Modelled from the spec: the byte string encoding a sequence of
messages, one frame after another. -/
def encodeFrames (ps : List (List Nat)) : List Nat :=
  (ps.map encodeFrame).flatten

/-- Modelled from the spec: the state of `msgpack.Unpacker` — its internal
byte buffer. -/
structure Unpacker where
  buf : List Nat := []
deriving DecidableEq

/-- Modelled from the spec: `Unpacker.feed` followed by iterating the
unpacker to exhaustion, returning the decoded messages in order and the
unpacker with the unconsumed tail still buffered. -/
def Unpacker.feed (u : Unpacker) (data : List Nat) :
    List (List Nat) × Unpacker :=
  ((drainBuffer (u.buf ++ data)).1, ⟨(drainBuffer (u.buf ++ data)).2⟩)

/-- `rawDataReceived` (lines 85-91): feed the unpacker with the delivered
bytes, then iterate it, dispatching each decoded message through
`messageReceived`.  The claim-relevant observable is the sequence of
messages the unpacker yields to that loop, returned here together with
the updated unpacker. -/
def rawDataReceived (u : Unpacker) (data : List Nat) :
    List (List Nat) × Unpacker :=
  u.feed data

/-! ## Concrete scenario states -/

/-- `n` successive `createRequest` calls on one (stream) connection,
collecting the assigned msgids in order; the method name and params play
no part in msgid allocation. -/
def createRequests : Proto → Nat → List Nat × Proto
  | s, 0 => ([], s)
  | s, n + 1 =>
      match MsgpackBaseProtocol.createRequest s "method" [] with
      | .ok m s1 => (m :: (createRequests s1 n).1, (createRequests s1 n).2)
      | .err _ s1 => ([], s1)

/-- A datagram protocol bound to peer `"p"`, connected, constructed with
a 5-second per-request timeout. -/
def datagram0 : Proto :=
  { connected := true, timeout := some 5, connAddress := some (.str "p") }

/-- `datagram0` after `createRequest("echo", "hi")`: msgid 1 assigned,
deferred 0 pending, timer 0 scheduled. -/
def datagramOneReq : Proto :=
  (MsgpackDatagramProtocol.createRequest datagram0 "echo" [.str "hi"]).state

/-- `datagramOneReq` after a second `createRequest("sum", 2)`: msgid 2,
deferred 1, timer 1. -/
def datagramTwoReq : Proto :=
  (MsgpackDatagramProtocol.createRequest datagramOneReq "sum" [.int 2]).state

/-- `datagramOneReq` after its per-request timer fires with no response. -/
def datagramOneReqTimedOut : Proto :=
  (MsgpackDatagramProtocol.fireTimer datagramOneReq 0 (.int 1)).state

/-- `datagramOneReq` after a matching Response `(1, 1, nil, 7)` is
processed before the deadline. -/
def datagramOneReqResponded : Proto :=
  (MsgpackDatagramProtocol.responseReceived datagramOneReq
     (mkResponse (.int 1) .nil (.int 7))).state

/-- `datagramTwoReq` after the per-request timer of msgid 2 fires. -/
def datagramTimedOut : Proto :=
  (MsgpackDatagramProtocol.fireTimer datagramTwoReq 1 (.int 2)).state

/-- `datagramTimedOut` after the transport signals `connectionRefused`
(state at the point where the drain loop's errback raises). -/
def datagramRefused : Proto :=
  (MsgpackDatagramProtocol.connectionRefused datagramTimedOut).state

/-- A connected stream protocol after one `createRequest("echo", "hi")`:
msgid 1 assigned, deferred 0 pending. -/
def streamOneReq : Proto :=
  (MsgpackBaseProtocol.createRequest { connected := true } "echo"
     [.str "hi"]).state

/-- `streamOneReq` after `connectionLost` with the Twisted reason
`ConnectionDone`. -/
def streamLost : Proto :=
  (MsgpackStreamProtocol.connectionLost streamOneReq
     (.twistedReason "ConnectionDone")).state

/-- `streamOneReq` after a second `createRequest("sum", 2)`: two pending
outgoing requests (msgid 1 with deferred 0, msgid 2 with deferred 1). -/
def streamTwoReq : Proto :=
  (MsgpackBaseProtocol.createRequest streamOneReq "sum" [.int 2]).state

/-! ## Dictionary lemmas -/

@[simp] theorem dictGet_nil {α : Type} (k : Val) :
    dictGet ([] : List (Val × α)) k = none := rfl

@[simp] theorem dictGet_cons {α : Type} (k key : Val) (v : α)
    (rest : List (Val × α)) :
    dictGet ((k, v) :: rest) key
      = if k = key then some v else dictGet rest key := rfl

/-- Looking up the key just set. -/
theorem dictGet_dictSet_self {α : Type} (l : List (Val × α)) (k : Val)
    (v : α) : dictGet (dictSet l k v) k = some v := by
  induction l with
  | nil => simp [dictSet]
  | cons p rest ih =>
      obtain ⟨k', v'⟩ := p
      by_cases h : k' = k <;> simp [dictSet, h, ih]

/-- Removing a key that was just set into a dictionary not containing it
restores the dictionary. -/
theorem dictRemove_dictSet_fresh {α : Type} (l : List (Val × α)) (k : Val)
    (v : α) (h : dictGet l k = none) :
    dictRemove (dictSet l k v) k = l := by
  induction l with
  | nil => simp [dictSet, dictRemove]
  | cons p rest ih =>
      obtain ⟨k', v'⟩ := p
      by_cases hk : k' = k
      · simp [hk] at h
      · simp [dictGet_cons, hk] at h
        simp [dictSet, dictRemove, hk, ih h]

/-- Removing the key of the last entry when no earlier entry carries it. -/
theorem dictRemove_append_single {α : Type} (l : List (Val × α)) (k : Val)
    (v : α) (h : k ∉ l.map Prod.fst) :
    dictRemove (l ++ [(k, v)]) k = l := by
  induction l with
  | nil => simp [dictRemove]
  | cons p rest ih =>
      obtain ⟨k', v'⟩ := p
      simp only [List.map_cons, List.mem_cons] at h
      push_neg at h
      simp [dictRemove, Ne.symm h.1, ih h.2]

/-! ## Drain lemma -/

/-- `callbackOutgoingRequests` drains cleanly when the pending entries
have pairwise-distinct keys, pairwise-distinct deferreds, and none of the
deferreds has been fired yet: every entry is popped and its deferred is
resolved with `out`, in pop (reverse-insertion) order, leaving the table
empty. -/
theorem drainOutgoing_ok (out : Outcome) :
    ∀ (entries : List (Val × Nat)) (s : Proto),
      s.outgoing = entries.reverse →
      (entries.map Prod.fst).Nodup →
      (entries.map Prod.snd).Nodup →
      (∀ d ∈ entries.map Prod.snd, d ∉ s.firedDeferreds) →
      ∃ s', MsgpackBaseProtocol.drainOutgoing out s entries = .ok s'
        ∧ s'.outgoing = []
        ∧ s'.connected = s.connected
        ∧ s'.resolutions
            = s.resolutions ++ entries.map (fun p => (p.2, out))
  | [], s, hout, _, _, _ => by
      refine ⟨s, ?_, ?_, rfl, by simp⟩
      · simp [MsgpackBaseProtocol.drainOutgoing]
      · simpa using hout
  | (msgid, d) :: rest, s, hout, hkeys, hds, hunfired => by
      have hdfree : d ∉ s.firedDeferreds := by
        exact hunfired d (by simp)
      have hkey : msgid ∉ (rest.reverse).map Prod.fst := by
        simp only [List.map_cons, List.nodup_cons] at hkeys
        simpa [List.map_reverse] using hkeys.1
      have houtg :
          dictRemove s.outgoing msgid = rest.reverse := by
        rw [hout, List.reverse_cons]
        exact dictRemove_append_single _ _ _ hkey
      obtain ⟨s', h1, h2, h3, h4⟩ := drainOutgoing_ok out rest
        { s with
          outgoing := rest.reverse,
          firedDeferreds := d :: s.firedDeferreds,
          resolutions := s.resolutions ++ [(d, out)],
          events := s.events ++ [.resolved d out] }
        rfl
        (by simp only [List.map_cons, List.nodup_cons] at hkeys
            exact hkeys.2)
        (by simp only [List.map_cons, List.nodup_cons] at hds
            exact hds.2)
        (by intro d' hd'
            simp only [List.map_cons, List.nodup_cons] at hds
            simp only [List.mem_cons]
            push_neg
            refine ⟨?_, hunfired d' (by simp [hd'])⟩
            intro hcontra
            exact hds.1 (hcontra ▸ hd'))
      refine ⟨s', ?_, h2, h3, ?_⟩
      · simp only [MsgpackBaseProtocol.drainOutgoing, houtg,
          resolveDeferred, hdfree, if_false]
        exact h1
      · rw [h4]
        simp

/-! ## msgid-allocation lemmas -/

/-- On a connected protocol, `createRequest` returns msgid
`_next_msgid + 1` and performs exactly the mutations of lines 60-70. -/
theorem createRequest_of_connected (s : Proto) (m : String) (p : List Val)
    (h : s.connected = true) :
    MsgpackBaseProtocol.createRequest s m p
      = .ok (s.nextMsgid + 1)
          { s with
            nextMsgid := s.nextMsgid + 1,
            deferredCount := s.deferredCount + 1,
            outgoing := dictSet s.outgoing (.int (s.nextMsgid + 1))
                s.deferredCount,
            events := s.events
                ++ [.wrote (mkRequest (s.nextMsgid + 1) m p) none] } := by
  simp [MsgpackBaseProtocol.createRequest, MsgpackBaseProtocol.getNextMsgid,
        MsgpackBaseProtocol.writeMessage, h]

/-- `n` successive `createRequest` calls on a connected protocol assign
the msgids `_next_msgid + 1, …, _next_msgid + n`, in order. -/
theorem createRequests_range (s : Proto) (n : Nat) (h : s.connected = true) :
    (createRequests s n).1 = List.range' (s.nextMsgid + 1) n := by
  induction n generalizing s with
  | zero => simp [createRequests]
  | succ n ih =>
      rw [List.range'_succ]
      simp only [createRequests, createRequest_of_connected s "method" [] h]
      rw [ih _ (by simpa using h)]

/-! ## Streaming-decoder lemmas -/

@[simp] theorem drainBuffer_nil : drainBuffer [] = ([], []) := by
  simp [drainBuffer]

theorem drainBuffer_cons_le (l : Nat) (rest : List Nat)
    (h : l ≤ rest.length) :
    drainBuffer (l :: rest)
      = (rest.take l :: (drainBuffer (rest.drop l)).1,
         (drainBuffer (rest.drop l)).2) := by
  rw [drainBuffer]
  simp [h]

theorem drainBuffer_cons_gt (l : Nat) (rest : List Nat)
    (h : ¬ l ≤ rest.length) :
    drainBuffer (l :: rest) = ([], l :: rest) := by
  rw [drainBuffer]
  simp [h]

/-- Splitting the input to the decoder: draining `b1 ++ b2` first yields
exactly what draining `b1` alone yields, then continues on the leftover
prefixed to `b2`.  This is the heart of the arbitrary-boundary
reassembly property. -/
theorem drainBuffer_append : ∀ (b1 b2 : List Nat),
    drainBuffer (b1 ++ b2)
      = ((drainBuffer b1).1
           ++ (drainBuffer ((drainBuffer b1).2 ++ b2)).1,
         (drainBuffer ((drainBuffer b1).2 ++ b2)).2)
  | [], b2 => by simp
  | l :: rest, b2 => by
      by_cases h : l ≤ rest.length
      · have hrec := drainBuffer_append (rest.drop l) b2
        have h2 : l ≤ (rest ++ b2).length := by
          simp only [List.length_append]
          omega
        rw [List.cons_append, drainBuffer_cons_le l (rest ++ b2) h2,
            List.take_append_of_le_length h,
            List.drop_append_of_le_length h,
            drainBuffer_cons_le l rest h, hrec]
        simp
      · rw [drainBuffer_cons_gt l rest h, List.cons_append]
        simp
termination_by b1 => b1.length
decreasing_by simp [List.length_drop]; omega

/-- Feeding the complete encoding of a message sequence yields exactly
that sequence and leaves the buffer empty. -/
theorem drainBuffer_encodeFrames (ps : List (List Nat)) :
    drainBuffer (encodeFrames ps) = (ps, []) := by
  induction ps with
  | nil => simp [encodeFrames]
  | cons p rest ih =>
      have : encodeFrames (p :: rest)
          = p.length :: (p ++ encodeFrames rest) := by
        simp [encodeFrames, encodeFrame]
      rw [this, drainBuffer_cons_le p.length (p ++ encodeFrames rest)
            (by simp), List.take_left, List.drop_left, ih]

/-! ## Claim theorems -/

/-- **C9.** For every byte string encoding a sequence of well-formed
messages, feeding it to `rawDataReceived` in one delivery yields all
contained messages in order (with an empty buffer afterwards), and
feeding the same bytes split at an arbitrary byte boundary `i` across two
deliveries yields the identical sequence of messages, the partial
trailing bytes of the first delivery having stayed buffered. -/
theorem rawDataReceived_split_invariance (ps : List (List Nat)) (i : Nat) :
    (rawDataReceived ⟨[]⟩ (encodeFrames ps)).1 = ps
    ∧ (rawDataReceived ⟨[]⟩ (encodeFrames ps)).2.buf = []
    ∧ (rawDataReceived ⟨[]⟩ ((encodeFrames ps).take i)).1
        ++ (rawDataReceived
              (rawDataReceived ⟨[]⟩ ((encodeFrames ps).take i)).2
              ((encodeFrames ps).drop i)).1 = ps
    ∧ (rawDataReceived
          (rawDataReceived ⟨[]⟩ ((encodeFrames ps).take i)).2
          ((encodeFrames ps).drop i)).2.buf = [] := by
  have key := drainBuffer_append
    ((encodeFrames ps).take i) ((encodeFrames ps).drop i)
  rw [List.take_append_drop, drainBuffer_encodeFrames ps,
      Prod.mk.injEq] at key
  refine ⟨?_, ?_, ?_, ?_⟩
  · simp [rawDataReceived, Unpacker.feed, drainBuffer_encodeFrames ps]
  · simp [rawDataReceived, Unpacker.feed, drainBuffer_encodeFrames ps]
  · simpa [rawDataReceived, Unpacker.feed] using key.1.symm
  · simpa [rawDataReceived, Unpacker.feed] using key.2.symm

/-- **C1.** Evaluating the code at the claim's input: a Response
`(1, 5, nil, 42)` arrives while `_outgoing_requests` holds no entry for
msgid 5 (only an unrelated pending entry for msgid 3).  The response is
NOT discarded silently: `responseReceived` raises `UnboundLocalError`,
because after the `pass`-swallowed `KeyError` of the failed `pop` the
unassigned local `df` is dereferenced.  The raise happens with the tables
untouched (the returned raise-state is the input state itself), so the
other pending entry is indeed unaffected — but an error is raised, where
the claim demands none. -/
theorem responseReceived_unmatched_msgid_raises :
    MsgpackBaseProtocol.responseReceived
      { connected := true, nextMsgid := 3,
        outgoing := [(.int 3, 0)], deferredCount := 1 }
      (mkResponse (.int 5) .nil (.int 42))
      = .err (.unboundLocalError "df")
          { connected := true, nextMsgid := 3,
            outgoing := [(.int 3, 0)], deferredCount := 1 } := by
  rfl

/-- **C6.** An incoming Request whose msgid is already present in
`_incoming_requests` is rejected with `InvalidRequest` before any
registration or dispatch: `requestReceived` raises with the state exactly
as it was, so the duplicated msgid is not re-entered and the entry (and
in-flight execution) of the first request with that msgid is untouched. -/
theorem requestReceived_duplicate_msgid_rejected (s : Proto)
    (t msgid mn ps : Val) (ctx : Option Val) (h : Except Err Val)
    (hdup : (dictGet s.incoming msgid).isSome = true) :
    MsgpackBaseProtocol.requestReceived s [t, msgid, mn, ps] ctx h
      = .err (.invalidRequest "Request with msgid already exists") s := by
  simp [MsgpackBaseProtocol.requestReceived, unpack4, hdup]

/-- Witness for `requestReceived_duplicate_msgid_rejected`: msgid 7
arrives again while the first request with msgid 7 is still executing. -/
theorem requestReceived_duplicate_msgid_rejected_witness :
    (dictGet (Proto.incoming
        { incoming := [(.int 7, some (.str "peer"))] }) (.int 7)).isSome = true
    ∧ MsgpackBaseProtocol.requestReceived
        { incoming := [(.int 7, some (.str "peer"))] }
        [MSGTYPE_REQUEST, .int 7, .str "echo", .arr []] none (.ok .nil)
        = .err (.invalidRequest "Request with msgid already exists")
            { incoming := [(.int 7, some (.str "peer"))] } :=
  ⟨by decide,
   requestReceived_duplicate_msgid_rejected
     { incoming := [(.int 7, some (.str "peer"))] }
     MSGTYPE_REQUEST (.int 7) (.str "echo") (.arr []) none (.ok .nil)
     (by decide)⟩

/-- **C8.** A decoded message whose leading type tag is none of 0
(Request), 1 (Response) or 2 (Notification) reaches
`undefinedMessageReceived`, which raises — the protocol-violation failure
the spec's taxonomy names `UndefinedMessage` (the concrete Python
exception class is `NotImplementedError`).  The raise leaves the state
untouched. -/
theorem messageReceived_undefined_tag_raises (s : Proto) (t : Val)
    (rest : List Val) (ctx : Option Val) (h : Except Err Val)
    (h0 : t ≠ MSGTYPE_REQUEST) (h1 : t ≠ MSGTYPE_RESPONSE)
    (h2 : t ≠ MSGTYPE_NOTIFICATION) :
    MsgpackBaseProtocol.messageReceived s (t :: rest) ctx h
      = .err .undefinedMessage s := by
  simp [MsgpackBaseProtocol.messageReceived, h0, h1, h2]

/-- **C3.** Evaluating the code at the claim's failing input: on a
datagram protocol with a per-request timeout, one request is pending
(msgid 1, deferred 0, timer 0).  When the timer fires first,
`timeoutRequest` resolves the completion handle as failed with
`TimeoutError` — but, using `get` rather than `pop`, it leaves the
`_outgoing_requests` entry in the table, where the claim (and §4.4 of
the spec) demand its removal.  The second half of the claim does hold:
a matching Response processed before the deadline resolves the handle as
success, cancels the scheduled timer (so it never fires) and removes the
entry. -/
theorem timeoutRequest_leaves_entry_in_table :
    MsgpackDatagramProtocol.createRequest datagram0 "echo" [.str "hi"]
      = .ok 1 datagramOneReq
    ∧ dictGet datagramOneReq.outgoing (.int 1) = some 0
    ∧ MsgpackDatagramProtocol.fireTimer datagramOneReq 0 (.int 1)
        = .ok datagramOneReqTimedOut
    ∧ datagramOneReqTimedOut.resolutions
        = [(0, .failure (.timeoutError "Request timed out"))]
    ∧ dictGet datagramOneReqTimedOut.outgoing (.int 1) = some 0
    ∧ MsgpackDatagramProtocol.responseReceived datagramOneReq
        (mkResponse (.int 1) .nil (.int 7)) = .ok datagramOneReqResponded
    ∧ datagramOneReqResponded.resolutions = [(0, .success (.int 7))]
    ∧ datagramOneReqResponded.cancelledTimers = [0]
    ∧ datagramOneReqResponded.firedTimers = []
    ∧ dictGet datagramOneReqResponded.outgoing (.int 1) = none :=
  ⟨rfl, rfl, rfl, rfl, rfl, rfl, rfl, rfl, rfl, rfl⟩

/-- **C2.** Evaluating the code at a schedule that violates the claim:
two datagram requests are pending (msgid 1 with deferred 0, msgid 2 with
deferred 1).  The per-request timer of msgid 2 fires: deferred 1 is
errbacked with `TimeoutError`, but its `_outgoing_requests` entry stays
(see C3).  When `connectionRefused` subsequently drains the table — the
very mechanism that is supposed to guarantee every pending handle exactly
one resolution — its first `popitem` re-errbacks the already-fired
deferred 1: Twisted raises `AlreadyCalledError`, the drain loop aborts,
and deferred 0, whose caller has observed nothing, is left pending in the
table with no mechanism remaining to resolve it. -/
theorem abortDrain_leaves_handle_unresolved :
    MsgpackDatagramProtocol.createRequest datagram0 "echo" [.str "hi"]
      = .ok 1 datagramOneReq
    ∧ MsgpackDatagramProtocol.createRequest datagramOneReq "sum" [.int 2]
        = .ok 2 datagramTwoReq
    ∧ MsgpackDatagramProtocol.fireTimer datagramTwoReq 1 (.int 2)
        = .ok datagramTimedOut
    ∧ datagramTimedOut.resolutions
        = [(1, .failure (.timeoutError "Request timed out"))]
    ∧ dictGet datagramTimedOut.outgoing (.int 2) = some 1
    ∧ MsgpackDatagramProtocol.connectionRefused datagramTimedOut
        = .err .alreadyCalledError datagramRefused
    ∧ datagramRefused.resolutions
        = [(1, .failure (.timeoutError "Request timed out"))]
    ∧ dictGet datagramRefused.outgoing (.int 1) = some 0
    ∧ datagramRefused.firedDeferreds = [1] :=
  ⟨rfl, rfl, rfl, rfl, rfl, rfl, rfl, rfl, rfl⟩

/-- **C5.** For every N `createRequest` calls on one connected
connection, the N assigned msgids are `_next_msgid + 1, …, _next_msgid + N`
— strictly monotonically increasing and hence pairwise distinct; and
since every key already present in `_outgoing_requests` was assigned by
an earlier call (so is at most the current `_next_msgid`), no new msgid
collides with an entry that still exists. -/
theorem createRequest_msgids_pairwise_distinct (s : Proto) (n : Nat)
    (h : s.connected = true)
    (hkeys : ∀ k ∈ s.outgoing.map Prod.fst,
        ∃ j ≤ s.nextMsgid, k = Val.int j) :
    (createRequests s n).1 = List.range' (s.nextMsgid + 1) n
    ∧ List.Pairwise (· < ·) (createRequests s n).1
    ∧ List.Pairwise (· ≠ ·) (createRequests s n).1
    ∧ ∀ m ∈ (createRequests s n).1,
        Val.int m ∉ s.outgoing.map Prod.fst := by
  have hr := createRequests_range s n h
  refine ⟨hr, ?_, ?_, ?_⟩
  · rw [hr]; exact List.pairwise_lt_range' _ _
  · rw [hr]; exact (List.pairwise_lt_range' _ _).imp Nat.ne_of_lt
  · intro m hm hmem
    rw [hr, List.mem_range'] at hm
    obtain ⟨i, _, rfl⟩ := hm
    obtain ⟨j, hj, hk⟩ := hkeys _ hmem
    have : s.nextMsgid + 1 + 1 * i = j := by
      exact_mod_cast Val.int.inj hk
    omega

/-- Witness for `createRequest_msgids_pairwise_distinct`: three requests
on a fresh connected protocol receive msgids 1, 2, 3. -/
theorem createRequest_msgids_pairwise_distinct_witness :
    (Proto.connected { connected := true } = true
      ∧ ∀ k ∈ (Proto.outgoing { connected := true }).map Prod.fst,
          ∃ j ≤ Proto.nextMsgid { connected := true }, k = Val.int j)
    ∧ ((createRequests { connected := true } 3).1 = List.range' 1 3
       ∧ List.Pairwise (· < ·) (createRequests { connected := true } 3).1
       ∧ List.Pairwise (· ≠ ·) (createRequests { connected := true } 3).1
       ∧ ∀ m ∈ (createRequests { connected := true } 3).1,
           Val.int m ∉ (Proto.outgoing { connected := true }).map Prod.fst) :=
  ⟨⟨rfl, by simp⟩,
   createRequest_msgids_pairwise_distinct { connected := true } 3 rfl (by simp)⟩

/-- **C4, counterexample.** A stream connection with K = 1 pending
outgoing request is disconnected with the Twisted reason
`ConnectionDone`.  The pending completion handle is resolved as failed —
but with the verbatim disconnect reason, not with a `ConnectionError`
wrapping it, refuting the claim as stated. -/
theorem connectionLost_reason_not_wrapped :
    MsgpackBaseProtocol.createRequest { connected := true } "echo"
      [.str "hi"] = .ok 1 streamOneReq
    ∧ MsgpackStreamProtocol.connectionLost streamOneReq
        (.twistedReason "ConnectionDone") = .ok streamLost
    ∧ streamLost.resolutions
        = [(0, .failure (.twistedReason "ConnectionDone"))]
    ∧ streamLost.resolutions.map (fun p => p.2.isConnectionFailure)
        = [false]
    ∧ streamLost.outgoing = [] :=
  ⟨rfl, rfl, rfl, rfl, rfl⟩

/-- **C4, amended.** For every stream connection with K pending outgoing
requests (keys and deferreds pairwise distinct, none already fired — the
invariant `createRequest` maintains), a disconnect resolves all K
completion handles as failed with the verbatim disconnect reason (not
with a `ConnectionError` wrapping it), resolves zero of them as
succeeded, and leaves `_outgoing_requests` empty. -/
theorem connectionLost_fails_all_pending (s : Proto) (reason : Err)
    (hkeys : (s.outgoing.map Prod.fst).Nodup)
    (hds : (s.outgoing.map Prod.snd).Nodup)
    (hunfired : ∀ d ∈ s.outgoing.map Prod.snd, d ∉ s.firedDeferreds) :
    ∃ s', MsgpackStreamProtocol.connectionLost s reason = .ok s'
      ∧ s'.connected = false
      ∧ s'.outgoing = []
      ∧ s'.resolutions = s.resolutions
          ++ s.outgoing.reverse.map
              (fun p => (p.2, Outcome.failure reason)) := by
  obtain ⟨s', h1, h2, h3, h4⟩ :=
    drainOutgoing_ok (.failure reason) s.outgoing.reverse
      { s with connected := false }
      (by simp)
      (by simpa [List.map_reverse, List.nodup_reverse] using hkeys)
      (by simpa [List.map_reverse, List.nodup_reverse] using hds)
      (by intro d hd
          exact hunfired d (by simpa [List.map_reverse] using hd))
  exact ⟨s', h1, by simpa using h3, h2, h4⟩

/-- Witness for `connectionLost_fails_all_pending`: K = 2 pending
requests, disconnected with reason `ConnectionDone`; both are failed with
that reason, none succeeds, the table ends empty. -/
theorem connectionLost_fails_all_pending_witness :
    ((streamTwoReq.outgoing.map Prod.fst).Nodup
      ∧ (streamTwoReq.outgoing.map Prod.snd).Nodup
      ∧ ∀ d ∈ streamTwoReq.outgoing.map Prod.snd,
          d ∉ streamTwoReq.firedDeferreds)
    ∧ ∃ s', MsgpackStreamProtocol.connectionLost streamTwoReq
          (.twistedReason "ConnectionDone") = .ok s'
        ∧ s'.connected = false
        ∧ s'.outgoing = []
        ∧ s'.resolutions = streamTwoReq.resolutions
            ++ streamTwoReq.outgoing.reverse.map
                (fun p => (p.2, Outcome.failure (.twistedReason "ConnectionDone"))) :=
  ⟨⟨by decide, by decide, by decide⟩,
   connectionLost_fails_all_pending streamTwoReq (.twistedReason "ConnectionDone")
     (by decide) (by decide) (by decide)⟩

/-- **C7.** For every dispatched incoming Request (fresh msgid), whatever
the handler's outcome, the observable actions are exactly: the
`_incoming_requests` entry is registered first (before the completion
callbacks run — so `respondCallback` finds the registered peer context,
which routes the Response), then the Response (success or error) is
built and written, and the entry is removed as the final step, exactly
once; afterwards the table is as before the request. -/
theorem requestReceived_lifecycle (s : Proto) (t msgid mn ps : Val)
    (ctx : Option Val) (hout : Except Err Val)
    (hfresh : dictGet s.incoming msgid = none) :
    ∃ s', MsgpackBaseProtocol.requestReceived s [t, msgid, mn, ps] ctx hout
        = .ok s'
      ∧ s'.events = s.events
          ++ [.registered msgid,
              .wrote (match hout with
                      | .ok v => mkResponse msgid .nil v
                      | .error e => mkResponse msgid
                          (.str (if s.sendErrors then Err.brief e
                                 else Err.message e)) .nil) ctx,
              .removed msgid]
      ∧ s'.incoming = s.incoming
      ∧ dictGet s'.incoming msgid = none := by
  cases hout with
  | ok v =>
      have hstep : MsgpackBaseProtocol.requestReceived s [t, msgid, mn, ps]
          ctx (.ok v)
          = .ok (MsgpackBaseProtocol.endRequest
              (MsgpackBaseProtocol.respondCallback
                { s with deferredCount := s.deferredCount + 1,
                         incoming := dictSet s.incoming msgid ctx,
                         events := s.events ++ [.registered msgid] } v msgid)
              msgid) := by
        unfold MsgpackBaseProtocol.requestReceived
        simp only [unpack4]
        rw [hfresh]
        rfl
      refine ⟨_, hstep, ?_, ?_, ?_⟩
      · simp [MsgpackBaseProtocol.endRequest,
          MsgpackBaseProtocol.respondCallback,
          MsgpackBaseProtocol.writeMessage, dictGet_dictSet_self]
      · simp [MsgpackBaseProtocol.endRequest,
          MsgpackBaseProtocol.respondCallback,
          MsgpackBaseProtocol.writeMessage, dictGet_dictSet_self,
          dictRemove_dictSet_fresh _ _ _ hfresh]
      · simp [MsgpackBaseProtocol.endRequest,
          MsgpackBaseProtocol.respondCallback,
          MsgpackBaseProtocol.writeMessage, dictGet_dictSet_self,
          dictRemove_dictSet_fresh _ _ _ hfresh, hfresh]
  | error e =>
      have hstep : MsgpackBaseProtocol.requestReceived s [t, msgid, mn, ps]
          ctx (.error e)
          = .ok (MsgpackBaseProtocol.endRequest
              (MsgpackBaseProtocol.respondErrback
                { s with deferredCount := s.deferredCount + 1,
                         incoming := dictSet s.incoming msgid ctx,
                         events := s.events ++ [.registered msgid] } e msgid)
              msgid) := by
        unfold MsgpackBaseProtocol.requestReceived
        simp only [unpack4]
        rw [hfresh]
        rfl
      refine ⟨_, hstep, ?_, ?_, ?_⟩
      · simp [MsgpackBaseProtocol.endRequest,
          MsgpackBaseProtocol.respondErrback,
          MsgpackBaseProtocol.respondError,
          MsgpackBaseProtocol.writeMessage, dictGet_dictSet_self]
      · simp [MsgpackBaseProtocol.endRequest,
          MsgpackBaseProtocol.respondErrback,
          MsgpackBaseProtocol.respondError,
          MsgpackBaseProtocol.writeMessage, dictGet_dictSet_self,
          dictRemove_dictSet_fresh _ _ _ hfresh]
      · simp [MsgpackBaseProtocol.endRequest,
          MsgpackBaseProtocol.respondErrback,
          MsgpackBaseProtocol.respondError,
          MsgpackBaseProtocol.writeMessage, dictGet_dictSet_self,
          dictRemove_dictSet_fresh _ _ _ hfresh, hfresh]

/-- Witness for `requestReceived_lifecycle`: request msgid 1 from peer
"peer", handler returns `"hi"`; the trace is register, write success
Response to that peer, remove. -/
theorem requestReceived_lifecycle_witness :
    dictGet (Proto.incoming {}) (.int 1) = none
    ∧ ∃ s', MsgpackBaseProtocol.requestReceived {}
          [MSGTYPE_REQUEST, .int 1, .str "echo", .arr [.str "hi"]]
          (some (.str "peer")) (.ok (.str "hi")) = .ok s'
        ∧ s'.events = [] ++
            [.registered (.int 1),
             .wrote (mkResponse (.int 1) .nil (.str "hi")) (some (.str "peer")),
             .removed (.int 1)]
        ∧ s'.incoming = Proto.incoming {}
        ∧ dictGet s'.incoming (.int 1) = none :=
  ⟨rfl,
   requestReceived_lifecycle {} MSGTYPE_REQUEST (.int 1) (.str "echo")
     (.arr [.str "hi"]) (some (.str "peer")) (.ok (.str "hi")) rfl⟩

/-- **C10.** On a datagram protocol constructed with a (truthy) timeout,
every outgoing message written through `writeMessage` — Requests,
Responses and Notifications alike — schedules a per-request timer stored
in `_pendingTimeouts` under the message's second element, which for a
Notification is the method name and not a msgid; and no code path ever
removes a `_pendingTimeouts` entry: neither cancelling its timer (the
Response path) nor the timer firing touches the map. -/
theorem datagram_writeMessage_always_schedules (s : Proto) (msg : List Val)
    (ctx : Option Val) (hcfg : s.timeoutConfigured = true)
    (hlen : 2 ≤ msg.length) :
    (∃ s', MsgpackDatagramProtocol.writeMessage s msg ctx = .ok s'
       ∧ dictGet s'.pendingTimeouts (elem1 msg) = some s.timerCount
       ∧ s'.timerCount = s.timerCount + 1)
    ∧ (∀ (mn : String) (ps : List Val), elem1 (mkNotification mn ps) = .str mn)
    ∧ (∀ (s₂ : Proto) (tid : Nat),
        (cancelTimer s₂ tid).state.pendingTimeouts = s₂.pendingTimeouts)
    ∧ (∀ (s₂ : Proto) (tid : Nat) (m : Val),
        (MsgpackDatagramProtocol.fireTimer s₂ tid m).state.pendingTimeouts
          = s₂.pendingTimeouts) := by
  have hnot : ¬ msg.length < 2 := Nat.not_lt.mpr hlen
  refine ⟨?_, ?_, ?_, ?_⟩
  · have hstep : MsgpackDatagramProtocol.writeMessage s msg ctx
        = .ok (MsgpackBaseProtocol.writeMessage
            { s with timerCount := s.timerCount + 1,
                     pendingTimeouts :=
                       dictSet s.pendingTimeouts (elem1 msg) s.timerCount }
            msg ctx) := by
      unfold MsgpackDatagramProtocol.writeMessage
      rw [hcfg]
      simp [hnot]
    exact ⟨_, hstep, by
      simp [MsgpackBaseProtocol.writeMessage, dictGet_dictSet_self], rfl⟩
  · intro mn ps
    rfl
  · intro s₂ tid
    by_cases h1 : tid ∈ s₂.firedTimers <;>
      by_cases h2 : tid ∈ s₂.cancelledTimers <;>
        simp [cancelTimer, Step.state, h1, h2]
  · intro s₂ tid m
    unfold MsgpackDatagramProtocol.fireTimer
      MsgpackDatagramProtocol.timeoutRequest
    cases hd : dictGet
        (Proto.outgoing { s₂ with firedTimers := tid :: s₂.firedTimers }) m with
    | none => simp [hd, Step.state]
    | some d =>
        by_cases hf : d ∈ s₂.firedDeferreds <;>
          simp [hd, resolveDeferred, Step.state, hf]

/-- Witness for `datagram_writeMessage_always_schedules`: a Notification
`(2, "log", ["x"])` written on `datagram0` gets a pending timeout keyed
by the method name `"log"`. -/
theorem datagram_writeMessage_always_schedules_witness :
    (Proto.timeoutConfigured datagram0 = true
      ∧ 2 ≤ (mkNotification "log" [.str "x"]).length)
    ∧ ((∃ s', MsgpackDatagramProtocol.writeMessage datagram0
            (mkNotification "log" [.str "x"]) none = .ok s'
          ∧ dictGet s'.pendingTimeouts (elem1 (mkNotification "log" [.str "x"]))
              = some (Proto.timerCount datagram0)
          ∧ s'.timerCount = Proto.timerCount datagram0 + 1)
       ∧ (∀ (mn : String) (ps : List Val),
            elem1 (mkNotification mn ps) = .str mn)
       ∧ (∀ (s₂ : Proto) (tid : Nat),
            (cancelTimer s₂ tid).state.pendingTimeouts = s₂.pendingTimeouts)
       ∧ (∀ (s₂ : Proto) (tid : Nat) (m : Val),
            (MsgpackDatagramProtocol.fireTimer s₂ tid m).state.pendingTimeouts
              = s₂.pendingTimeouts)) :=
  ⟨⟨rfl, by decide⟩,
   datagram_writeMessage_always_schedules datagram0
     (mkNotification "log" [.str "x"]) none rfl (by decide)⟩

/-- Witness for `messageReceived_undefined_tag_raises`: tag 3. -/
theorem messageReceived_undefined_tag_raises_witness :
    (Val.int 3 ≠ MSGTYPE_REQUEST ∧ Val.int 3 ≠ MSGTYPE_RESPONSE
      ∧ Val.int 3 ≠ MSGTYPE_NOTIFICATION)
    ∧ MsgpackBaseProtocol.messageReceived {} [.int 3, .int 1] none (.ok .nil)
        = .err .undefinedMessage {} :=
  ⟨⟨by decide, by decide, by decide⟩,
   messageReceived_undefined_tag_raises {} (.int 3) [.int 1] none (.ok .nil)
     (by decide) (by decide) (by decide)⟩

end TxMsgpackRpc
